import Mathlib

/-!
Shallow embedding of the OAuth 2.1 / MCP transport core of the
Youtube-Ultimate-Toolkit-MCP server (src/unnamed/part_002, mirrored in
src/src/index.ts): PKCE verification, the abuse guard, code and token
issuance at /token, the request gate (authMiddleware), and the /mcp
session registry.  Machine words are Nat with explicit `% 2^32`;
JavaScript string truthiness is modelled explicitly; randomness
(generated tokens, codes, transport-assigned session ids) enters as
explicit parameters.
-/

set_option maxRecDepth 10000

namespace YtMcp

/-! ### 32-bit word helpers (SHA-256 operates on 32-bit words) -/

/-- 2^32, the modulus for 32-bit words. -/
def w32 : Nat := 4294967296

/-- Right-rotation of a 32-bit word by `n` positions. -/
def rotr (n x : Nat) : Nat := ((x >>> n) ||| (x <<< (32 - n))) % w32

/-- SHA-256 `Ch` function (bitwise choose). -/
def shaCh (e f g : Nat) : Nat := (e &&& f) ^^^ ((e ^^^ (w32 - 1)) &&& g)

/-- SHA-256 `Maj` function (bitwise majority). -/
def shaMaj (a b c : Nat) : Nat := (a &&& b) ^^^ (a &&& c) ^^^ (b &&& c)

/-- SHA-256 Σ₀. -/
def bigSigma0 (a : Nat) : Nat := rotr 2 a ^^^ rotr 13 a ^^^ rotr 22 a

/-- SHA-256 Σ₁. -/
def bigSigma1 (e : Nat) : Nat := rotr 6 e ^^^ rotr 11 e ^^^ rotr 25 e

/-- SHA-256 σ₀. -/
def smallSigma0 (x : Nat) : Nat := rotr 7 x ^^^ rotr 18 x ^^^ (x >>> 3)

/-- SHA-256 σ₁. -/
def smallSigma1 (x : Nat) : Nat := rotr 17 x ^^^ rotr 19 x ^^^ (x >>> 10)

/-- The 64 SHA-256 round constants (FIPS 180-4 §4.2.2, written in decimal). -/
def shaK : List Nat := [
  1116352408, 1899447441, 3049323471, 3921009573, 961987163, 1508970993,
  2453635748, 2870763221, 3624381080, 310598401, 607225278, 1426881987,
  1925078388, 2162078206, 2614888103, 3248222580, 3835390401, 4022224774,
  264347078, 604807628, 770255983, 1249150122, 1555081692, 1996064986,
  2554220882, 2821834349, 2952996808, 3210313671, 3336571891, 3584528711,
  113926993, 338241895, 666307205, 773529912, 1294757372, 1396182291,
  1695183700, 1986661051, 2177026350, 2456956037, 2730485921, 2820302411,
  3259730800, 3345764771, 3516065817, 3600352804, 4094571909, 275423344,
  430227734, 506948616, 659060556, 883997877, 958139571, 1322822218,
  1537002063, 1747873779, 1955562222, 2024104815, 2227730452, 2361852424,
  2428436474, 2756734187, 3204031479, 3329325298]

/-- The SHA-256 initial hash state (FIPS 180-4 §5.3.3, written in decimal). -/
def shaH0 : List Nat := [
  1779033703, 3144134277, 1013904242, 2773480762,
  1359893119, 2600822924, 528734635, 1541459225]

/-- Big-endian byte decomposition: `n` bytes of the value `v`. -/
def bytesBE (n v : Nat) : List Nat := (List.range n).map (fun i => (v >>> (8 * (n - 1 - i))) % 256)

/-- SHA-256 padding: append 0x80, zeros, and the 64-bit big-endian bit length
so the total length is a multiple of 64 bytes. -/
def shaPad (msg : List Nat) : List Nat :=
  let padZeros := (119 - msg.length % 64) % 64
  msg ++ [128] ++ List.replicate padZeros 0 ++ bytesBE 8 (8 * msg.length)

/-- Split a byte list into 64-byte chunks (structural recursion on a fuel
bound so the definition reduces in the kernel). -/
def chunks64Aux : Nat → List Nat → List (List Nat)
  | 0, _ => []
  | _, [] => []
  | fuel + 1, l => l.take 64 :: chunks64Aux fuel (l.drop 64)

/-- Split a byte list into 64-byte chunks. -/
def chunks64 (l : List Nat) : List (List Nat) := chunks64Aux l.length l

/-- The `i`-th big-endian 32-bit word of a 64-byte chunk. -/
def word32At (chunk : List Nat) (i : Nat) : Nat :=
  ((chunk.getD (4 * i) 0) <<< 24) ||| ((chunk.getD (4 * i + 1) 0) <<< 16) |||
  ((chunk.getD (4 * i + 2) 0) <<< 8) ||| chunk.getD (4 * i + 3) 0

/-- One message-schedule extension step: append word `w[t]` computed from
`w[t-2]`, `w[t-7]`, `w[t-15]`, `w[t-16]`. -/
def scheduleStep (w : List Nat) : List Nat :=
  let n := w.length
  w ++ [(smallSigma1 (w.getD (n - 2) 0) + w.getD (n - 7) 0 +
         smallSigma0 (w.getD (n - 15) 0) + w.getD (n - 16) 0) % w32]

/-- Iterate a function `n` times. -/
def applyN {α : Type} (f : α → α) : Nat → α → α
  | 0, a => a
  | n + 1, a => applyN f n (f a)

/-- The 64-word message schedule of a 64-byte chunk. -/
def messageSchedule (chunk : List Nat) : List Nat :=
  applyN scheduleStep 48 ((List.range 16).map (word32At chunk))

/-- The eight SHA-256 working registers a..h. -/
abbrev Regs := Nat × Nat × Nat × Nat × Nat × Nat × Nat × Nat

/-- One SHA-256 compression round, consuming one (constant, schedule-word) pair. -/
def compressStep (st : Regs) (kw : Nat × Nat) : Regs :=
  let (a, b, c, d, e, f, g, h) := st
  let t1 := (h + bigSigma1 e + shaCh e f g + kw.1 + kw.2) % w32
  let t2 := (bigSigma0 a + shaMaj a b c) % w32
  ((t1 + t2) % w32, a, b, c, (d + t1) % w32, e, f, g)

/-- Compress one 64-byte chunk into the running hash state. -/
def compressChunk (hs : List Nat) (chunk : List Nat) : List Nat :=
  let w := messageSchedule chunk
  let init : Regs := (hs.getD 0 0, hs.getD 1 0, hs.getD 2 0, hs.getD 3 0,
                      hs.getD 4 0, hs.getD 5 0, hs.getD 6 0, hs.getD 7 0)
  let res := (shaK.zip w).foldl compressStep init
  [(hs.getD 0 0 + res.1) % w32, (hs.getD 1 0 + res.2.1) % w32,
   (hs.getD 2 0 + res.2.2.1) % w32, (hs.getD 3 0 + res.2.2.2.1) % w32,
   (hs.getD 4 0 + res.2.2.2.2.1) % w32, (hs.getD 5 0 + res.2.2.2.2.2.1) % w32,
   (hs.getD 6 0 + res.2.2.2.2.2.2.1) % w32, (hs.getD 7 0 + res.2.2.2.2.2.2.2) % w32]

/-- SHA-256 of a byte sequence, as 32 bytes. -/
def sha256Bytes (msg : List Nat) : List Nat :=
  (((chunks64 (shaPad msg)).foldl compressChunk shaH0).map (bytesBE 4)).flatten

/-! ### UTF-8 and base64url (Node's `update(string)` and `digest('base64url')`) -/

/-- UTF-8 encoding of one character. -/
def utf8CharBytes (c : Char) : List Nat :=
  let n := c.toNat
  if n < 128 then [n]
  else if n < 2048 then [192 ||| (n >>> 6), 128 ||| (n &&& 63)]
  else if n < 65536 then [224 ||| (n >>> 12), 128 ||| ((n >>> 6) &&& 63), 128 ||| (n &&& 63)]
  else [240 ||| (n >>> 18), 128 ||| ((n >>> 12) &&& 63),
        128 ||| ((n >>> 6) &&& 63), 128 ||| (n &&& 63)]

/-- UTF-8 bytes of a string, as Node's `hash.update(str)` consumes it. -/
def strToBytes (s : String) : List Nat := (s.data.map utf8CharBytes).flatten

/-- The base64url alphabet (RFC 4648 §5). -/
def base64urlAlphabet : List Char :=
  "ABCDEFGHIJKLMNOPQRSTUVWXYZabcdefghijklmnopqrstuvwxyz0123456789-_".data

/-- The base64url digit for a 6-bit value. -/
def b64c (n : Nat) : Char := base64urlAlphabet.getD n 'A'

/-- base64url encoding without padding, three input bytes per four output digits. -/
def base64urlChars : List Nat → List Char
  | b0 :: b1 :: b2 :: rest =>
    b64c (b0 >>> 2) :: b64c (((b0 &&& 3) <<< 4) ||| (b1 >>> 4)) ::
    b64c (((b1 &&& 15) <<< 2) ||| (b2 >>> 6)) :: b64c (b2 &&& 63) :: base64urlChars rest
  | [b0, b1] => [b64c (b0 >>> 2), b64c (((b0 &&& 3) <<< 4) ||| (b1 >>> 4)), b64c ((b1 &&& 15) <<< 2)]
  | [b0] => [b64c (b0 >>> 2), b64c ((b0 &&& 3) <<< 4)]
  | [] => []

/-- base64url encoding (no padding) of a byte sequence, as a string. -/
def base64urlEncode (bytes : List Nat) : String := String.mk (base64urlChars bytes)

/-! ### PKCE verification (`verifyCodeChallenge` in the source) -/

/-- `verifyCodeChallenge(codeVerifier, codeChallenge, method)`:
S256 compares `base64url(sha256(verifier))` with the challenge, plain compares
the strings directly, and any other method is rejected. -/
def verifyCodeChallenge (codeVerifier codeChallenge method : String) : Bool :=
  if method = "S256" then
    base64urlEncode (sha256Bytes (strToBytes codeVerifier)) == codeChallenge
  else if method = "plain" then
    codeVerifier == codeChallenge
  else
    false

/-! ### Association-list stores (JS `Map` with string keys) and JS truthiness -/

/-- Lookup in a string-keyed association list (JS `Map.get`). -/
def alookup {β : Type} (k : String) : List (String × β) → Option β
  | [] => none
  | (k', v) :: rest => if k' = k then some v else alookup k rest

/-- Delete a key (JS `Map.delete`). -/
def aerase {β : Type} (k : String) (l : List (String × β)) : List (String × β) :=
  l.filter (fun p => p.1 ≠ k)

/-- Insert or replace a key (JS `Map.set`). -/
def ainsert {β : Type} (k : String) (v : β) (l : List (String × β)) : List (String × β) :=
  (k, v) :: aerase k l

/-- Add an element to a set-as-list (JS `Set.add`): no duplicate is created. -/
def setAdd (t : String) (l : List String) : List String :=
  if l.contains t then l else l ++ [t]

/-- JavaScript string truthiness of an optional string: absent and empty are falsy. -/
def truthy : Option String → Bool
  | none => false
  | some s => s ≠ ""

/-- JS `x || d` on an optional string field: the default replaces absent or empty. -/
def orDefault (o : Option String) (d : String) : String :=
  match o with
  | some s => if s = "" then d else s
  | none => d

/-! ### Data model: stores held by the remote server -/

/-- The operator-provisioned client identity (OAUTH_CLIENT_ID / OAUTH_CLIENT_SECRET). -/
structure OAuthConfig where
  clientId : String
  clientSecret : String
deriving DecidableEq

/-- Value stored in `authCodes` for an issued authorization code. -/
structure AuthData where
  codeChallenge : String
  codeChallengeMethod : String
  clientId : String
  redirectUri : String
  expiresAt : Nat
deriving DecidableEq

/-- Value stored in `failedAttempts` for an IP. -/
structure FailedRecord where
  count : Nat
  lockedUntil : Nat
deriving DecidableEq

/-- The four in-memory stores of the remote server.  `sessions` keeps only the
registered ids: the bound server/transport values are external collaborators. -/
structure ServerState where
  failedAttempts : List (String × FailedRecord)
  validTokens : List String
  authCodes : List (String × AuthData)
  sessions : List String
deriving DecidableEq

/-- `MAX_ATTEMPTS` in the source. -/
def MAX_ATTEMPTS : Nat := 5

/-- `LOCKOUT_DURATION_MS` in the source: 10 minutes. -/
def LOCKOUT_DURATION_MS : Nat := 600000

/-! ### Abuse Guard -/

/-- Result of `isLockedOut`. -/
structure LockStatus where
  locked : Bool
  remainingMs : Nat
deriving DecidableEq

/-- `isLockedOut(ip)`; it also purges a record whose lockout has elapsed, so it
returns the updated `failedAttempts` map alongside the status. -/
def isLockedOut (now : Nat) (ip : String) (fa : List (String × FailedRecord)) :
    LockStatus × List (String × FailedRecord) :=
  match alookup ip fa with
  | none => (⟨false, 0⟩, fa)
  | some record =>
    if now < record.lockedUntil then (⟨true, record.lockedUntil - now⟩, fa)
    else if 0 < record.lockedUntil then (⟨false, 0⟩, aerase ip fa)
    else (⟨false, 0⟩, fa)

/-- `recordFailedAttempt(ip)`. -/
def recordFailedAttempt (now : Nat) (ip : String) (fa : List (String × FailedRecord)) :
    List (String × FailedRecord) :=
  let record := (alookup ip fa).getD ⟨0, 0⟩
  let record := { record with count := record.count + 1 }
  let record :=
    if MAX_ATTEMPTS ≤ record.count then
      { record with lockedUntil := now + LOCKOUT_DURATION_MS }
    else record
  ainsert ip record fa

/-- `clearFailedAttempts(ip)`. -/
def clearFailedAttempts (ip : String) (fa : List (String × FailedRecord)) :
    List (String × FailedRecord) :=
  aerase ip fa

/-! ### `POST /authorize/approve` -/

/-- Form fields of the approval request (all optional, as in an HTTP body). -/
structure ApproveReq where
  client_id : Option String
  redirect_uri : Option String
  code_challenge : Option String
  code_challenge_method : Option String
  state : Option String
  password : Option String
deriving DecidableEq

/-- Observable outcome of the approval handler. -/
inductive ApproveResult where
  /-- 429 while the IP is locked out, carrying `Math.ceil(remainingMs/60000)`. -/
  | tooManyAttempts (remainingMins : Nat)
  /-- 400 "Missing parameters". -/
  | missingParams
  /-- 429 lockout notice, issued on the failure that reaches the threshold. -/
  | lockedNotice
  /-- 403 "Incorrect password. N attempts remaining." -/
  | incorrectPassword (attemptsLeft : Nat)
  /-- 302 redirect to redirect_uri carrying the fresh code and echoed state. -/
  | redirect (code : String) (state : Option String)
deriving DecidableEq

/-- The approval handler.  `checkPw` stands for
`bcrypt.compare(·, AUTH_PASSWORD_HASH)` (an external primitive) and
`freshCode` for the random `generateToken(32)` output. -/
def approve (checkPw : String → Bool) (now : Nat) (ip : String) (freshCode : String)
    (req : ApproveReq) (st : ServerState) : ApproveResult × ServerState :=
  let r := isLockedOut now ip st.failedAttempts
  let st := { st with failedAttempts := r.2 }
  if r.1.locked then
    (.tooManyAttempts ((r.1.remainingMs + 59999) / 60000), st)
  else if ! truthy req.client_id || ! truthy req.redirect_uri || ! truthy req.code_challenge then
    (.missingParams, st)
  else if ! checkPw (req.password.getD "") then
    let fa := recordFailedAttempt now ip st.failedAttempts
    let count := ((alookup ip fa).map FailedRecord.count).getD 0
    -- `MAX_ATTEMPTS - count ≤ 0` in JS; Nat subtraction truncates to 0 exactly then.
    let attemptsLeft := MAX_ATTEMPTS - count
    let st := { st with failedAttempts := fa }
    if attemptsLeft = 0 then (.lockedNotice, st)
    else (.incorrectPassword attemptsLeft, st)
  else
    let st := { st with failedAttempts := clearFailedAttempts ip st.failedAttempts }
    let authData : AuthData := {
      codeChallenge := req.code_challenge.getD ""
      codeChallengeMethod := orDefault req.code_challenge_method "S256"
      clientId := req.client_id.getD ""
      redirectUri := req.redirect_uri.getD ""
      expiresAt := now + 600000 }
    (.redirect freshCode req.state, { st with authCodes := ainsert freshCode authData st.authCodes })

/-! ### `POST /token` -/

/-- Request fields of the token endpoint; `client_id`/`client_secret` are the
result of `getClientCredentials` (body fields or Basic header). -/
structure TokenReq where
  grant_type : Option String
  code : Option String
  code_verifier : Option String
  refresh_token : Option String
  client_id : Option String
  client_secret : Option String
deriving DecidableEq

/-- Observable outcome of the token endpoint. -/
inductive TokenResult where
  /-- 200 {access_token, token_type:"Bearer", expires_in, refresh_token, scope}. -/
  | ok (accessToken : String) (refreshToken : String) (expiresIn : Nat) (scope : String)
  /-- 400 {error, error_description?}. -/
  | err (error : String) (errorDescription : Option String)
deriving DecidableEq

/-- JS `client_secret && client_secret !== OAUTH_CLIENT_SECRET`. -/
def secretMismatch (cfg : OAuthConfig) : Option String → Bool
  | none => false
  | some s => s ≠ "" && s ≠ cfg.clientSecret

/-- The handler rejects when `!code_verifier || !verifyCodeChallenge(...)`;
this is the complement of that test. -/
def pkceOk (cv : Option String) (authData : AuthData) : Bool :=
  match cv with
  | none => false
  | some v => v ≠ "" && verifyCodeChallenge v authData.codeChallenge authData.codeChallengeMethod

/-- The token endpoint.  `newAccessToken`/`newRefreshToken` stand for the two
random `generateToken(64)` outputs minted on a successful grant. -/
def tokenEndpoint (cfg : OAuthConfig) (now : Nat) (newAccessToken newRefreshToken : String)
    (req : TokenReq) (st : ServerState) : TokenResult × ServerState :=
  if req.grant_type = some "refresh_token" then
    match req.refresh_token with
    | some rt =>
      if rt ≠ "" && st.validTokens.contains rt then
        (.ok newAccessToken newRefreshToken 86400 "mcp",
         { st with validTokens := setAdd newRefreshToken (setAdd newAccessToken st.validTokens) })
      else (.err "invalid_grant" none, st)
    | none => (.err "invalid_grant" none, st)
  else if req.grant_type ≠ some "authorization_code" then
    (.err "unsupported_grant_type" none, st)
  else
    match req.code with
    | none => (.err "invalid_grant" (some "Invalid authorization code"), st)
    | some code =>
      match alookup code st.authCodes with
      | none => (.err "invalid_grant" (some "Invalid authorization code"), st)
      | some authData =>
        if authData.expiresAt < now then
          (.err "invalid_grant" (some "Authorization code expired"),
           { st with authCodes := aerase code st.authCodes })
        else if req.client_id ≠ some cfg.clientId then
          (.err "invalid_client" none, st)
        else if secretMismatch cfg req.client_secret then
          (.err "invalid_client" none, st)
        else if ! pkceOk req.code_verifier authData then
          (.err "invalid_grant" (some "PKCE verification failed"), st)
        else
          (.ok newAccessToken newRefreshToken 86400 "mcp",
           { st with
               authCodes := aerase code st.authCodes,
               validTokens := setAdd newRefreshToken (setAdd newAccessToken st.validTokens) })

/-! ### Request Gate (`authMiddleware`) -/

/-- The fixed handshake allow-list. -/
def allowedMethods : List String :=
  ["initialize", "ping", "notifications/initialized", "tools/list", "prompts/list", "resources/list"]

/-- The parts of a request the middleware inspects. -/
structure GateReq where
  httpMethod : String
  bodyMethod : Option String
  authHeader : Option String
deriving DecidableEq

/-- Observable outcome of the middleware. -/
inductive GateResult where
  /-- `next()`: the request proceeds to the /mcp handler. -/
  | next
  /-- 401 {error:"unauthorized"} with this WWW-Authenticate header value. -/
  | unauthorized (wwwAuthenticate : String)
deriving DecidableEq

/-- Remove the first occurrence of `pat` (JS `String.replace` with a string
pattern and empty replacement). -/
def stripFirstOcc (pat : List Char) : List Char → List Char
  | [] => []
  | c :: cs =>
    if pat.isPrefixOf (c :: cs) then (c :: cs).drop pat.length
    else c :: stripFirstOcc pat cs

/-- `authHeader?.replace("Bearer ", "")`. -/
def extractToken (authHeader : Option String) : Option String :=
  authHeader.map (fun s => String.mk (stripFirstOcc "Bearer ".data s.data))

/-- JS `token && validTokens.has(token)` (the middleware rejects on its negation). -/
def tokenOk (validTokens : List String) : Option String → Bool
  | none => false
  | some t => t ≠ "" && validTokens.contains t

/-- The WWW-Authenticate challenge emitted on unauthorized requests: it points
at the protected-resource discovery document. -/
def challengeHeader (baseUrl : String) : String :=
  "Bearer resource_metadata=\"" ++ baseUrl ++ "/.well-known/oauth-protected-resource\""

/-- `authMiddleware`: allow-listed RPC methods and GET pass without auth;
anything else needs a bearer token present in `validTokens`. -/
def authMiddleware (st : ServerState) (baseUrl : String) (req : GateReq) : GateResult :=
  let token := extractToken req.authHeader
  if (match req.bodyMethod with | some m => allowedMethods.contains m | none => false) then
    .next
  else if req.httpMethod = "GET" then
    .next
  else if ! tokenOk st.validTokens token then
    .unauthorized (challengeHeader baseUrl)
  else
    .next

/-! ### `ALL /mcp` session handling -/

/-- Observable outcomes of the /mcp handler branches. -/
inductive McpResult where
  /-- GET 400 {"error":"Invalid or missing session ID"}. -/
  | invalidSession
  /-- GET: SSE stream handed to the session's transport. -/
  | streamOpened
  /-- DELETE 200 {"status":"session terminated"} (returned unconditionally). -/
  | terminated
  /-- POST 404 {"error":"Session not found"}. -/
  | notFound
  /-- POST routed to an existing session's transport. -/
  | handledExisting
  /-- POST handled by a freshly created server/transport pair. -/
  | handledNew
deriving DecidableEq

/-- The GET (SSE stream) branch of the /mcp handler. -/
def mcpGet (sessionId : Option String) (st : ServerState) : McpResult × ServerState :=
  if ! truthy sessionId || ! st.sessions.contains (sessionId.getD "") then
    (.invalidSession, st)
  else
    (.streamOpened, st)

/-- The DELETE (session termination) branch of the /mcp handler. -/
def mcpDelete (sessionId : Option String) (st : ServerState) : McpResult × ServerState :=
  if truthy sessionId && st.sessions.contains (sessionId.getD "") then
    (.terminated, { st with sessions := st.sessions.filter (fun s => s ≠ sessionId.getD "") })
  else
    (.terminated, st)

/-- The POST branch of the /mcp handler.  `assignedId` stands for
`transport.sessionId` after the external transport handled the request on the
create path (the SDK assigns it during initialize); the registry stores the
new binding only when that id is truthy. -/
def mcpPost (sessionId : Option String) (bodyMethod : Option String) (assignedId : Option String)
    (st : ServerState) : McpResult × ServerState :=
  let known := truthy sessionId && st.sessions.contains (sessionId.getD "")
  let isInitialize := bodyMethod == some "initialize"
  if known then (.handledExisting, st)
  else if ! isInitialize && truthy sessionId then (.notFound, st)
  else if truthy assignedId then
    (.handledNew, { st with sessions := assignedId.getD "" :: st.sessions })
  else (.handledNew, st)

/-! ### Store lemmas -/

theorem alookup_ainsert_self {β : Type} (k : String) (v : β) (l : List (String × β)) :
    alookup k (ainsert k v l) = some v := by
  simp [ainsert, alookup]

theorem alookup_aerase_self {β : Type} (k : String) (l : List (String × β)) :
    alookup k (aerase k l) = none := by
  induction l with
  | nil => rfl
  | cons p rest ih =>
    by_cases h : p.1 = k
    · simpa [aerase, List.filter_cons, h] using ih
    · simpa [aerase, List.filter_cons, h, alookup] using ih

theorem mem_setAdd_self (t : String) (l : List String) : t ∈ setAdd t l := by
  unfold setAdd
  split
  · next h => exact List.mem_of_elem_eq_true h
  · exact List.mem_append_right _ (List.mem_singleton.mpr rfl)

theorem mem_setAdd_of_mem {x t : String} {l : List String} (h : x ∈ l) : x ∈ setAdd t l := by
  unfold setAdd
  split
  · exact h
  · exact List.mem_append_left _ h

theorem isPrefixOf_append (l rest : List Char) : l.isPrefixOf (l ++ rest) = true := by
  induction l with
  | nil => simp [List.isPrefixOf]
  | cons a as ih => simp [List.isPrefixOf, ih]

theorem stripFirstOcc_append (pat rest : List Char) (hpat : pat ≠ []) :
    stripFirstOcc pat (pat ++ rest) = rest := by
  cases pat with
  | nil => exact absurd rfl hpat
  | cons p ps =>
    have h1 : (p :: ps).isPrefixOf ((p :: ps) ++ rest) = true := isPrefixOf_append _ _
    rw [List.cons_append, stripFirstOcc, ← List.cons_append, if_pos h1, List.drop_left]

theorem extractToken_bearer (t : String) : extractToken (some ("Bearer " ++ t)) = some t := by
  have hd : ("Bearer " ++ t).data = "Bearer ".data ++ t.data := rfl
  have h : stripFirstOcc "Bearer ".data ("Bearer " ++ t).data = t.data := by
    rw [hd, stripFirstOcc_append _ _ (by decide)]
  show some (String.mk (stripFirstOcc "Bearer ".data ("Bearer " ++ t).data)) = some t
  rw [h]

/-! ### C1: PKCE verification -/

/-- C1: PKCE verification with method S256 succeeds iff the base64url encoding
(no padding) of SHA-256 of the verifier equals the challenge; with method
plain iff verifier and challenge are equal byte-for-byte; any other method
fails. -/
theorem verifyCodeChallenge_spec (v c : String) :
    (verifyCodeChallenge v c "S256" = true ↔ base64urlEncode (sha256Bytes (strToBytes v)) = c) ∧
    (verifyCodeChallenge v c "plain" = true ↔ v = c) ∧
    (∀ m : String, m ≠ "S256" → m ≠ "plain" → verifyCodeChallenge v c m = false) := by
  refine ⟨?_, ?_, ?_⟩
  · simp [verifyCodeChallenge]
  · simp [verifyCodeChallenge]
  · intro m h1 h2
    simp [verifyCodeChallenge, h1, h2]

/-- Witness for C1 at concrete inputs (the S256 digest is the base64url-encoded
SHA-256 of "abc"). -/
theorem verifyCodeChallenge_spec_witness :
    verifyCodeChallenge "abc" "ungWv48Bz-pBQUDeXa4iI7ADYaOWF3qctBD_YfIAFa0" "S256" = true ∧
    verifyCodeChallenge "abc" "abc" "plain" = true ∧
    verifyCodeChallenge "abc" "abc" "md5" = false :=
  ⟨(verifyCodeChallenge_spec "abc" "ungWv48Bz-pBQUDeXa4iI7ADYaOWF3qctBD_YfIAFa0").1.mpr
      (by decide),
   (verifyCodeChallenge_spec "abc" "abc").2.1.mpr rfl,
   (verifyCodeChallenge_spec "abc" "abc").2.2 "md5" (by decide) (by decide)⟩

/-! ### C7: unauthenticated tools/call is rejected with a challenge -/

/-- C7: a POST to /mcp whose body names method "tools/call" and that carries no
bearer token from the valid-token set is answered 401 with a WWW-Authenticate
challenge pointing at the protected-resource discovery document, regardless of
the rest of the request. -/
theorem authMiddleware_unauthenticated_tools_call
    (st : ServerState) (baseUrl : String) (req : GateReq)
    (hverb : req.httpMethod = "POST")
    (hmethod : req.bodyMethod = some "tools/call")
    (htoken : tokenOk st.validTokens (extractToken req.authHeader) = false) :
    authMiddleware st baseUrl req = .unauthorized (challengeHeader baseUrl) := by
  simp [authMiddleware, hverb, hmethod, htoken, allowedMethods]

/-- Witness for C7: no Authorization header, nonempty valid-token set. -/
theorem authMiddleware_unauthenticated_tools_call_witness :
    authMiddleware (⟨[], ["tok"], [], []⟩ : ServerState) "https://h"
      ⟨"POST", some "tools/call", none⟩ = .unauthorized (challengeHeader "https://h") :=
  authMiddleware_unauthenticated_tools_call _ _ _ rfl rfl (by decide)

/-! ### C5: a successful submission clears the failure record -/

/-- C5: for an IP that is not locked out, an approval submission with the
required fields present and a matching password issues a redirect and deletes
that IP's failed-attempt record entirely. -/
theorem approve_success_clears_failures
    (checkPw : String → Bool) (now : Nat) (ip freshCode : String)
    (req : ApproveReq) (st : ServerState)
    (hlock : (isLockedOut now ip st.failedAttempts).1.locked = false)
    (hcid : truthy req.client_id = true) (hred : truthy req.redirect_uri = true)
    (hch : truthy req.code_challenge = true)
    (hpw : checkPw (req.password.getD "") = true) :
    (approve checkPw now ip freshCode req st).1 = .redirect freshCode req.state ∧
    alookup ip (approve checkPw now ip freshCode req st).2.failedAttempts = none := by
  simp [approve, hlock, hcid, hred, hch, hpw, clearFailedAttempts, alookup_aerase_self]

/-- Witness for C5: fresh IP, correct password. -/
theorem approve_success_clears_failures_witness :
    (approve (fun s => s == "pw") 0 "ip1" "c1"
      ⟨some "cid", some "u", some "ch", none, none, some "pw"⟩
      (⟨[("ip1", ⟨2, 0⟩)], [], [], []⟩ : ServerState)).1 = .redirect "c1" none ∧
    alookup "ip1" (approve (fun s => s == "pw") 0 "ip1" "c1"
      ⟨some "cid", some "u", some "ch", none, none, some "pw"⟩
      (⟨[("ip1", ⟨2, 0⟩)], [], [], []⟩ : ServerState)).2.failedAttempts = none :=
  approve_success_clears_failures _ _ _ _ _ _ (by decide) (by decide) (by decide) (by decide)
    (by decide)

/-! ### C3: expired codes are rejected and purged -/

/-- C3: an authorization_code grant naming a stored code whose expiry lies in
the past is rejected with invalid_grant and the code is removed, regardless of
the client credentials and verifier carried by the request. -/
theorem tokenEndpoint_expired_code
    (cfg : OAuthConfig) (now : Nat) (tA tR : String) (req : TokenReq) (st : ServerState)
    (code : String) (authData : AuthData)
    (hgrant : req.grant_type = some "authorization_code")
    (hcode : req.code = some code)
    (hfound : alookup code st.authCodes = some authData)
    (hexp : authData.expiresAt < now) :
    (tokenEndpoint cfg now tA tR req st).1 =
      .err "invalid_grant" (some "Authorization code expired") ∧
    alookup code (tokenEndpoint cfg now tA tR req st).2.authCodes = none := by
  simp [tokenEndpoint, hgrant, hcode, hfound, hexp, alookup_aerase_self]

/-- Witness for C3: code stored with expiry 10, presented at time 11 with
correct client credentials and verifier. -/
theorem tokenEndpoint_expired_code_witness :
    (tokenEndpoint ⟨"cid", "sec"⟩ 11 "a1" "r1"
      ⟨some "authorization_code", some "code1", some "ch", none, some "cid", some "sec"⟩
      (⟨[], [], [("code1", ⟨"ch", "plain", "cid", "u", 10⟩)], []⟩ : ServerState)).1 =
      .err "invalid_grant" (some "Authorization code expired") ∧
    alookup "code1" (tokenEndpoint ⟨"cid", "sec"⟩ 11 "a1" "r1"
      ⟨some "authorization_code", some "code1", some "ch", none, some "cid", some "sec"⟩
      (⟨[], [], [("code1", ⟨"ch", "plain", "cid", "u", 10⟩)], []⟩ : ServerState)).2.authCodes =
      none :=
  tokenEndpoint_expired_code ⟨"cid", "sec"⟩ 11 "a1" "r1"
    ⟨some "authorization_code", some "code1", some "ch", none, some "cid", some "sec"⟩
    ⟨[], [], [("code1", ⟨"ch", "plain", "cid", "u", 10⟩)], []⟩
    "code1" ⟨"ch", "plain", "cid", "u", 10⟩ rfl rfl (by decide) (by decide)

/-! ### C6: the refresh_token grant -/

/-- C6: a refresh grant presenting a token that is absent from the valid-token
set fails with invalid_grant and leaves the state unchanged; presenting a
member of the set mints a fresh pair, stores both, and every previously valid
token (the presented one included) remains in the set. -/
theorem tokenEndpoint_refresh_eq
    (cfg : OAuthConfig) (now : Nat) (tA tR : String) (req : TokenReq) (st : ServerState)
    (hgrant : req.grant_type = some "refresh_token") :
    tokenEndpoint cfg now tA tR req st =
      if tokenOk st.validTokens req.refresh_token then
        (.ok tA tR 86400 "mcp", { st with validTokens := setAdd tR (setAdd tA st.validTokens) })
      else (.err "invalid_grant" none, st) := by
  unfold tokenEndpoint
  rw [hgrant, if_pos rfl]
  cases req.refresh_token with
  | none => simp [tokenOk]
  | some rt => simp [tokenOk]

/-- C6: a refresh grant presenting a token that is absent from the valid-token
set fails with invalid_grant and leaves the state unchanged; presenting a
member of the set mints a fresh pair, stores both, and every previously valid
token (the presented one included) remains in the set. -/
theorem tokenEndpoint_refresh_grant
    (cfg : OAuthConfig) (now : Nat) (tA tR : String) (req : TokenReq) (st : ServerState)
    (hgrant : req.grant_type = some "refresh_token") :
    (tokenOk st.validTokens req.refresh_token = false →
      (tokenEndpoint cfg now tA tR req st).1 = .err "invalid_grant" none ∧
      (tokenEndpoint cfg now tA tR req st).2 = st) ∧
    (∀ rt : String, req.refresh_token = some rt → rt ≠ "" → rt ∈ st.validTokens →
      (tokenEndpoint cfg now tA tR req st).1 = .ok tA tR 86400 "mcp" ∧
      tA ∈ (tokenEndpoint cfg now tA tR req st).2.validTokens ∧
      tR ∈ (tokenEndpoint cfg now tA tR req st).2.validTokens ∧
      ∀ t ∈ st.validTokens, t ∈ (tokenEndpoint cfg now tA tR req st).2.validTokens) := by
  have heq := tokenEndpoint_refresh_eq cfg now tA tR req st hgrant
  constructor
  · intro habsent
    rw [heq, if_neg (by simp [habsent])]
    exact ⟨rfl, rfl⟩
  · intro rt hrt hne hmem
    have hcond : tokenOk st.validTokens req.refresh_token = true := by
      rw [hrt]
      simp [tokenOk, hne, hmem]
    rw [heq, if_pos hcond]
    refine ⟨rfl, ?_, ?_, ?_⟩
    · exact mem_setAdd_of_mem (mem_setAdd_self tA st.validTokens)
    · exact mem_setAdd_self tR _
    · intro t ht
      exact mem_setAdd_of_mem (mem_setAdd_of_mem ht)

/-- Witness for C6: unknown token rejected; known token refreshed. -/
theorem tokenEndpoint_refresh_grant_witness :
    (tokenEndpoint ⟨"cid", "sec"⟩ 0 "a1" "r1"
      ⟨some "refresh_token", none, none, some "nope", none, none⟩
      (⟨[], ["t0"], [], []⟩ : ServerState)).1 = .err "invalid_grant" none ∧
    (tokenEndpoint ⟨"cid", "sec"⟩ 0 "a1" "r1"
      ⟨some "refresh_token", none, none, some "t0", none, none⟩
      (⟨[], ["t0"], [], []⟩ : ServerState)).1 = .ok "a1" "r1" 86400 "mcp" ∧
    "t0" ∈ (tokenEndpoint ⟨"cid", "sec"⟩ 0 "a1" "r1"
      ⟨some "refresh_token", none, none, some "t0", none, none⟩
      (⟨[], ["t0"], [], []⟩ : ServerState)).2.validTokens := by
  refine ⟨?_, ?_, ?_⟩
  · exact ((tokenEndpoint_refresh_grant ⟨"cid", "sec"⟩ 0 "a1" "r1"
      ⟨some "refresh_token", none, none, some "nope", none, none⟩
      ⟨[], ["t0"], [], []⟩ rfl).1 (by decide)).1
  · exact ((tokenEndpoint_refresh_grant ⟨"cid", "sec"⟩ 0 "a1" "r1"
      ⟨some "refresh_token", none, none, some "t0", none, none⟩
      ⟨[], ["t0"], [], []⟩ rfl).2 "t0" rfl (by decide) (by decide)).1
  · exact (((tokenEndpoint_refresh_grant ⟨"cid", "sec"⟩ 0 "a1" "r1"
      ⟨some "refresh_token", none, none, some "t0", none, none⟩
      ⟨[], ["t0"], [], []⟩ rfl).2 "t0" rfl (by decide) (by decide)).2.2.2) "t0" (by decide)

/-! ### C9: the valid-token set only grows -/

/-- C9: no operation removes a token: a token grant can only add to
`validTokens`, and the approval handler and every /mcp branch leave the set
untouched (there is no expiry sweep despite the advertised expires_in). -/
theorem validTokens_monotone
    (cfg : OAuthConfig) (now : Nat) (tA tR : String) (treq : TokenReq)
    (checkPw : String → Bool) (ip freshCode : String) (areq : ApproveReq)
    (sid bodyMethod assignedId : Option String) (st : ServerState) :
    (∀ t ∈ st.validTokens, t ∈ (tokenEndpoint cfg now tA tR treq st).2.validTokens) ∧
    (approve checkPw now ip freshCode areq st).2.validTokens = st.validTokens ∧
    (mcpGet sid st).2.validTokens = st.validTokens ∧
    (mcpDelete sid st).2.validTokens = st.validTokens ∧
    (mcpPost sid bodyMethod assignedId st).2.validTokens = st.validTokens := by
  refine ⟨?_, ?_, ?_, ?_, ?_⟩
  · intro t ht
    unfold tokenEndpoint
    repeat' split
    all_goals
      first
        | exact ht
        | exact mem_setAdd_of_mem (mem_setAdd_of_mem ht)
  · simp only [approve]
    repeat' split
    all_goals rfl
  · unfold mcpGet
    split <;> rfl
  · unfold mcpDelete
    split <;> rfl
  · simp only [mcpPost]
    repeat' split
    all_goals rfl

/-- Witness for C9: a token survives a refresh grant that mints new tokens. -/
theorem validTokens_monotone_witness :
    "t0" ∈ (tokenEndpoint ⟨"cid", "sec"⟩ 0 "a1" "r1"
      ⟨some "refresh_token", none, none, some "t0", none, none⟩
      (⟨[], ["t0"], [], []⟩ : ServerState)).2.validTokens :=
  (validTokens_monotone ⟨"cid", "sec"⟩ 0 "a1" "r1"
    ⟨some "refresh_token", none, none, some "t0", none, none⟩
    (fun _ => true) "ip" "c" ⟨none, none, none, none, none, none⟩ none none none
    ⟨[], ["t0"], [], []⟩).1 "t0" (by decide)

/-! ### C10: token roles are indistinct -/

/-- C10: any member of the valid-token set — whichever role it was issued
under — is accepted by the refresh_token grant and as a bearer credential by
the request gate. -/
theorem token_roles_indistinct
    (cfg : OAuthConfig) (now : Nat) (tA tR : String) (st : ServerState)
    (baseUrl : String) (t : String)
    (hmem : t ∈ st.validTokens) (hne : t ≠ "") :
    (tokenEndpoint cfg now tA tR ⟨some "refresh_token", none, none, some t, none, none⟩ st).1 =
      .ok tA tR 86400 "mcp" ∧
    authMiddleware st baseUrl ⟨"POST", some "tools/call", some ("Bearer " ++ t)⟩ = .next := by
  constructor
  · have hcond : tokenOk st.validTokens (some t) = true := by simp [tokenOk, hne, hmem]
    rw [tokenEndpoint_refresh_eq cfg now tA tR _ st rfl]
    rw [if_pos hcond]
  · have htok : tokenOk st.validTokens (extractToken (some ("Bearer " ++ t))) = true := by
      rw [extractToken_bearer]
      simp [tokenOk, hne, hmem]
    simp [authMiddleware, allowedMethods, htok]

/-- Witness for C10 on a concrete one-token state. -/
theorem token_roles_indistinct_witness :
    (tokenEndpoint ⟨"cid", "sec"⟩ 0 "a1" "r1"
      ⟨some "refresh_token", none, none, some "tk", none, none⟩
      (⟨[], ["tk"], [], []⟩ : ServerState)).1 = .ok "a1" "r1" 86400 "mcp" ∧
    authMiddleware (⟨[], ["tk"], [], []⟩ : ServerState) "https://h"
      ⟨"POST", some "tools/call", some ("Bearer " ++ "tk")⟩ = .next :=
  token_roles_indistinct ⟨"cid", "sec"⟩ 0 "a1" "r1" ⟨[], ["tk"], [], []⟩ "https://h" "tk"
    (by decide) (by decide)

/-! ### C2: authorization codes are single-use -/

/-- C2: a successful authorization_code grant deletes the redeemed code from
the store, and any later authorization_code grant presenting the same code is
rejected with invalid_grant. -/
theorem authorization_code_single_use
    (cfg : OAuthConfig) (now : Nat) (tA tR : String) (req : TokenReq) (st : ServerState)
    (code : String) (res : TokenResult) (st' : ServerState)
    (a r : String) (e : Nat) (sc : String)
    (hgrant : req.grant_type = some "authorization_code")
    (hcode : req.code = some code)
    (hrun : tokenEndpoint cfg now tA tR req st = (res, st'))
    (hok : res = .ok a r e sc) :
    alookup code st'.authCodes = none ∧
    ∀ (now2 : Nat) (tA2 tR2 : String) (req2 : TokenReq),
      req2.grant_type = some "authorization_code" → req2.code = some code →
      (tokenEndpoint cfg now2 tA2 tR2 req2 st').1 =
        .err "invalid_grant" (some "Invalid authorization code") := by
  subst hok
  have hdel : alookup code st'.authCodes = none := by
    unfold tokenEndpoint at hrun
    rw [hgrant, if_neg (by decide), if_neg (by decide)] at hrun
    rw [hcode] at hrun
    simp only [] at hrun
    cases hau : alookup code st.authCodes with
    | none =>
      rw [hau] at hrun
      simp at hrun
    | some ad =>
      rw [hau] at hrun
      repeat' split at hrun
      all_goals injection hrun with h1 h2
      all_goals
        first
          | exact TokenResult.noConfusion h1
          | (rw [← h2]
             exact alookup_aerase_self code st.authCodes)
  refine ⟨hdel, ?_⟩
  intro now2 tA2 tR2 req2 hg2 hc2
  unfold tokenEndpoint
  rw [hg2, if_neg (by decide), if_neg (by decide)]
  rw [hc2]
  simp only []
  rw [hdel]

/-- Witness for C2: a plain-method code redeemed once at time 50, presented
again at time 60 against the post-redemption state. -/
theorem authorization_code_single_use_witness :
    alookup "code1" ((⟨[], ["a1", "r1"], [], []⟩ : ServerState)).authCodes = none ∧
    (tokenEndpoint ⟨"cid", "sec"⟩ 60 "a2" "r2"
      ⟨some "authorization_code", some "code1", some "ch", none, some "cid", none⟩
      (⟨[], ["a1", "r1"], [], []⟩ : ServerState)).1 =
      .err "invalid_grant" (some "Invalid authorization code") := by
  have h := authorization_code_single_use ⟨"cid", "sec"⟩ 50 "a1" "r1"
    ⟨some "authorization_code", some "code1", some "ch", none, some "cid", none⟩
    ⟨[], [], [("code1", ⟨"ch", "plain", "cid", "u", 100⟩)], []⟩
    "code1" (.ok "a1" "r1" 86400 "mcp") ⟨[], ["a1", "r1"], [], []⟩
    "a1" "r1" 86400 "mcp" rfl rfl (by decide) rfl
  exact ⟨h.1, h.2 60 "a2" "r2" _ rfl rfl⟩

/-! ### C8: /mcp POST session handling -/

/-- C8 (amended): the POST branch routes a known session id to its binding; a
truthy but unknown session id with a non-initialize method gets 404 "Session
not found" and no new binding; in every other case — method initialize, or no
(or empty) session id whatever the method — the handler enters the create
path and registers a new binding exactly when the transport assigns a truthy
session id. -/
theorem mcpPost_characterization
    (sid bodyMethod assignedId : Option String) (st : ServerState) :
    ((truthy sid = true ∧ st.sessions.contains (sid.getD "") = true) →
      mcpPost sid bodyMethod assignedId st = (.handledExisting, st)) ∧
    ((truthy sid = true ∧ st.sessions.contains (sid.getD "") = false ∧
        bodyMethod ≠ some "initialize") →
      mcpPost sid bodyMethod assignedId st = (.notFound, st)) ∧
    ((truthy sid && st.sessions.contains (sid.getD "")) = false →
      (truthy sid = false ∨ bodyMethod = some "initialize") →
      (mcpPost sid bodyMethod assignedId st).1 = .handledNew ∧
      (mcpPost sid bodyMethod assignedId st).2.sessions =
        (if truthy assignedId then assignedId.getD "" :: st.sessions else st.sessions)) := by
  refine ⟨?_, ?_, ?_⟩
  · rintro ⟨h1, h2⟩
    have h2m : sid.getD "" ∈ st.sessions := by simpa using h2
    simp [mcpPost, h1, h2m]
  · rintro ⟨h1, h2, h3⟩
    have h2m : sid.getD "" ∉ st.sessions := by simpa using h2
    simp [mcpPost, h1, h2m, h3]
  · intro hknown h1
    have hno404 : (!(bodyMethod == some "initialize") && truthy sid) = false := by
      rcases h1 with h | h
      · simp [h]
      · simp [h]
    simp only [mcpPost, hknown, hno404, Bool.false_eq_true, if_false]
    split
    · exact ⟨rfl, rfl⟩
    · exact ⟨rfl, rfl⟩

/-- C8 as stated is false on the code: with no session id at all and a
non-initialize method, the handler does not answer "Session not found" — it
runs the create path and registers the transport-assigned binding. -/
theorem mcpPost_claim_counterexample :
    (mcpPost none (some "tools/call") (some "s1") (⟨[], [], [], []⟩ : ServerState)).1 ≠
      .notFound ∧
    (mcpPost none (some "tools/call") (some "s1") (⟨[], [], [], []⟩ : ServerState)).2.sessions =
      ["s1"] := by
  decide

/-- Witness for the amended C8: unknown truthy id with a non-initialize
method is answered 404 with the registry unchanged. -/
theorem mcpPost_characterization_witness :
    mcpPost (some "sX") (some "tools/call") none (⟨[], [], [], ["s0"]⟩ : ServerState) =
      (.notFound, ⟨[], [], [], ["s0"]⟩) :=
  (mcpPost_characterization (some "sX") (some "tools/call") none ⟨[], [], [], ["s0"]⟩).2.1
    ⟨by decide, by decide, by decide⟩

/-! ### Approval step lemmas for the lockout scenario -/

theorem approve_wrong_fresh
    (checkPw : String → Bool) (now : Nat) (ip code : String) (req : ApproveReq)
    (st : ServerState)
    (hcid : truthy req.client_id = true) (hred : truthy req.redirect_uri = true)
    (hch : truthy req.code_challenge = true)
    (hpw : checkPw (req.password.getD "") = false)
    (hrec : alookup ip st.failedAttempts = none) :
    approve checkPw now ip code req st =
      (.incorrectPassword 4,
       { st with failedAttempts := ainsert ip ⟨1, 0⟩ st.failedAttempts }) := by
  simp [approve, isLockedOut, recordFailedAttempt, hrec, hcid, hred, hch, hpw,
    alookup_ainsert_self, MAX_ATTEMPTS]

theorem approve_wrong_count
    (checkPw : String → Bool) (now : Nat) (ip code : String) (req : ApproveReq)
    (st : ServerState) (k : Nat)
    (hk : k + 1 < MAX_ATTEMPTS)
    (hcid : truthy req.client_id = true) (hred : truthy req.redirect_uri = true)
    (hch : truthy req.code_challenge = true)
    (hpw : checkPw (req.password.getD "") = false)
    (hrec : alookup ip st.failedAttempts = some ⟨k, 0⟩) :
    approve checkPw now ip code req st =
      (.incorrectPassword (MAX_ATTEMPTS - (k + 1)),
       { st with failedAttempts := ainsert ip ⟨k + 1, 0⟩ st.failedAttempts }) := by
  simp only [MAX_ATTEMPTS] at hk ⊢
  have h5 : ¬ (5 ≤ k + 1) := by omega
  have h0 : ¬ (5 - (k + 1) = 0) := by omega
  have h0' : ¬ (4 - k = 0) := by omega
  simp [approve, isLockedOut, recordFailedAttempt, hrec, hcid, hred, hch, hpw,
    alookup_ainsert_self, MAX_ATTEMPTS, h5, h0, h0']

theorem approve_wrong_threshold
    (checkPw : String → Bool) (now : Nat) (ip code : String) (req : ApproveReq)
    (st : ServerState)
    (hcid : truthy req.client_id = true) (hred : truthy req.redirect_uri = true)
    (hch : truthy req.code_challenge = true)
    (hpw : checkPw (req.password.getD "") = false)
    (hrec : alookup ip st.failedAttempts = some ⟨4, 0⟩) :
    approve checkPw now ip code req st =
      (.lockedNotice,
       { st with failedAttempts :=
           ainsert ip ⟨5, now + LOCKOUT_DURATION_MS⟩ st.failedAttempts }) := by
  simp [approve, isLockedOut, recordFailedAttempt, hrec, hcid, hred, hch, hpw,
    alookup_ainsert_self, MAX_ATTEMPTS]

theorem approve_locked
    (checkPw : String → Bool) (now : Nat) (ip code : String) (req : ApproveReq)
    (st : ServerState) (fr : FailedRecord)
    (hrec : alookup ip st.failedAttempts = some fr)
    (hl : now < fr.lockedUntil) :
    approve checkPw now ip code req st =
      (.tooManyAttempts ((fr.lockedUntil - now + 59999) / 60000), st) := by
  simp [approve, isLockedOut, hrec, hl]

theorem approve_right_after_lockout
    (checkPw : String → Bool) (now : Nat) (ip code : String) (req : ApproveReq)
    (st : ServerState) (fr : FailedRecord)
    (hrec : alookup ip st.failedAttempts = some fr)
    (h0 : 0 < fr.lockedUntil) (hle : fr.lockedUntil ≤ now)
    (hcid : truthy req.client_id = true) (hred : truthy req.redirect_uri = true)
    (hch : truthy req.code_challenge = true)
    (hpw : checkPw (req.password.getD "") = true) :
    approve checkPw now ip code req st =
      (.redirect code req.state,
       { st with
           failedAttempts := aerase ip (aerase ip st.failedAttempts),
           authCodes := ainsert code
             ⟨req.code_challenge.getD "", orDefault req.code_challenge_method "S256",
              req.client_id.getD "", req.redirect_uri.getD "", now + 600000⟩
             st.authCodes }) := by
  have hnl : ¬ now < fr.lockedUntil := by omega
  simp [approve, isLockedOut, clearFailedAttempts, hrec, hnl, h0, hcid, hred, hch, hpw]

/-! ### C4: the lockout scenario -/

/-- C4: from an IP with no failure record, four wrong-password submissions
answer 4, 3, 2, 1 attempts remaining; the fifth wrong one answers the lockout
notice; a sixth submission with the correct password while the 10-minute
window is still open is rejected as locked and issues no authorization code;
once the window has elapsed, a correct submission succeeds. -/
theorem approve_lockout_scenario
    (checkPw : String → Bool) (ip : String) (req : ApproveReq) (st0 : ServerState)
    (pwW pwR : String) (t1 t2 t3 t4 t5 t6 t7 : Nat) (c1 c2 c3 c4 c5 c6 c7 : String)
    (r1 r2 r3 r4 r5 r6 r7 : ApproveResult) (s1 s2 s3 s4 s5 s6 s7 : ServerState)
    (hcid : truthy req.client_id = true) (hred : truthy req.redirect_uri = true)
    (hch : truthy req.code_challenge = true)
    (hW : checkPw pwW = false) (hR : checkPw pwR = true)
    (hstart : alookup ip st0.failedAttempts = none)
    (h6 : t6 < t5 + LOCKOUT_DURATION_MS) (h7 : t5 + LOCKOUT_DURATION_MS ≤ t7)
    (e1 : approve checkPw t1 ip c1 { req with password := some pwW } st0 = (r1, s1))
    (e2 : approve checkPw t2 ip c2 { req with password := some pwW } s1 = (r2, s2))
    (e3 : approve checkPw t3 ip c3 { req with password := some pwW } s2 = (r3, s3))
    (e4 : approve checkPw t4 ip c4 { req with password := some pwW } s3 = (r4, s4))
    (e5 : approve checkPw t5 ip c5 { req with password := some pwW } s4 = (r5, s5))
    (e6 : approve checkPw t6 ip c6 { req with password := some pwR } s5 = (r6, s6))
    (e7 : approve checkPw t7 ip c7 { req with password := some pwR } s6 = (r7, s7)) :
    r1 = .incorrectPassword 4 ∧ r2 = .incorrectPassword 3 ∧ r3 = .incorrectPassword 2 ∧
    r4 = .incorrectPassword 1 ∧ r5 = .lockedNotice ∧
    (∃ mins, r6 = .tooManyAttempts mins) ∧ s6.authCodes = s5.authCodes ∧
    r7 = .redirect c7 req.state := by
  rw [approve_wrong_fresh checkPw t1 ip c1 { req with password := some pwW } st0
    hcid hred hch hW hstart] at e1
  injection e1 with hr1 hs1
  have hl1 : alookup ip s1.failedAttempts = some ⟨1, 0⟩ := by
    rw [← hs1]
    exact alookup_ainsert_self ip ⟨1, 0⟩ st0.failedAttempts
  rw [approve_wrong_count checkPw t2 ip c2 { req with password := some pwW } s1 1
    (by decide) hcid hred hch hW hl1] at e2
  injection e2 with hr2 hs2
  have hl2 : alookup ip s2.failedAttempts = some ⟨2, 0⟩ := by
    rw [← hs2]
    exact alookup_ainsert_self ip ⟨2, 0⟩ s1.failedAttempts
  rw [approve_wrong_count checkPw t3 ip c3 { req with password := some pwW } s2 2
    (by decide) hcid hred hch hW hl2] at e3
  injection e3 with hr3 hs3
  have hl3 : alookup ip s3.failedAttempts = some ⟨3, 0⟩ := by
    rw [← hs3]
    exact alookup_ainsert_self ip ⟨3, 0⟩ s2.failedAttempts
  rw [approve_wrong_count checkPw t4 ip c4 { req with password := some pwW } s3 3
    (by decide) hcid hred hch hW hl3] at e4
  injection e4 with hr4 hs4
  have hl4 : alookup ip s4.failedAttempts = some ⟨4, 0⟩ := by
    rw [← hs4]
    exact alookup_ainsert_self ip ⟨4, 0⟩ s3.failedAttempts
  rw [approve_wrong_threshold checkPw t5 ip c5 { req with password := some pwW } s4
    hcid hred hch hW hl4] at e5
  injection e5 with hr5 hs5
  have hl5 : alookup ip s5.failedAttempts = some ⟨5, t5 + LOCKOUT_DURATION_MS⟩ := by
    rw [← hs5]
    exact alookup_ainsert_self ip ⟨5, t5 + LOCKOUT_DURATION_MS⟩ s4.failedAttempts
  rw [approve_locked checkPw t6 ip c6 { req with password := some pwR } s5
    ⟨5, t5 + LOCKOUT_DURATION_MS⟩ hl5 h6] at e6
  injection e6 with hr6 hs6
  have hl6 : alookup ip s6.failedAttempts = some ⟨5, t5 + LOCKOUT_DURATION_MS⟩ := by
    rw [← hs6]
    exact hl5
  have h0 : (0 : Nat) < (⟨5, t5 + LOCKOUT_DURATION_MS⟩ : FailedRecord).lockedUntil := by
    simp only [LOCKOUT_DURATION_MS]
    omega
  rw [approve_right_after_lockout checkPw t7 ip c7 { req with password := some pwR } s6
    ⟨5, t5 + LOCKOUT_DURATION_MS⟩ hl6 h0 h7 hcid hred hch hR] at e7
  injection e7 with hr7 hs7
  refine ⟨hr1.symm, hr2.symm, hr3.symm, hr4.symm, hr5.symm, ⟨_, hr6.symm⟩, ?_, hr7.symm⟩
  rw [← hs6]

/-- Witness for C4: password hash modelled by equality with "secret", wrong
password "bad", attempts at times 1..5, a correct-but-locked attempt at time
6, and a correct attempt at time 600005 (= 5 + the 10-minute window).  The
seven handler runs and all hypotheses evaluate concretely. -/
theorem approve_lockout_scenario_witness :
    ApproveResult.incorrectPassword 4 = .incorrectPassword 4 ∧
    ApproveResult.incorrectPassword 3 = .incorrectPassword 3 ∧
    ApproveResult.incorrectPassword 2 = .incorrectPassword 2 ∧
    ApproveResult.incorrectPassword 1 = .incorrectPassword 1 ∧
    ApproveResult.lockedNotice = .lockedNotice ∧
    (∃ mins, ApproveResult.tooManyAttempts 10 = .tooManyAttempts mins) ∧
    (⟨[("9.9.9.9", ⟨5, 600005⟩)], [], [], []⟩ : ServerState).authCodes =
      (⟨[("9.9.9.9", ⟨5, 600005⟩)], [], [], []⟩ : ServerState).authCodes ∧
    ApproveResult.redirect "c7" (some "xyz") = .redirect "c7" (some "xyz") :=
  approve_lockout_scenario (fun s => s == "secret") "9.9.9.9"
    ⟨some "cid", some "u", some "ch", none, some "xyz", none⟩ ⟨[], [], [], []⟩
    "bad" "secret" 1 2 3 4 5 6 600005 "c1" "c2" "c3" "c4" "c5" "c6" "c7"
    (.incorrectPassword 4) (.incorrectPassword 3) (.incorrectPassword 2)
    (.incorrectPassword 1) .lockedNotice (.tooManyAttempts 10)
    (.redirect "c7" (some "xyz"))
    ⟨[("9.9.9.9", ⟨1, 0⟩)], [], [], []⟩ ⟨[("9.9.9.9", ⟨2, 0⟩)], [], [], []⟩
    ⟨[("9.9.9.9", ⟨3, 0⟩)], [], [], []⟩ ⟨[("9.9.9.9", ⟨4, 0⟩)], [], [], []⟩
    ⟨[("9.9.9.9", ⟨5, 600005⟩)], [], [], []⟩ ⟨[("9.9.9.9", ⟨5, 600005⟩)], [], [], []⟩
    ⟨[], [], [("c7", ⟨"ch", "S256", "cid", "u", 1200005⟩)], []⟩
    (by decide) (by decide) (by decide) (by decide) (by decide) (by decide)
    (by decide) (by decide)
    (by decide) (by decide) (by decide) (by decide) (by decide) (by decide) (by decide)

end YtMcp
